import Mathlib

/-!
Shallow embedding of `aacgmv2/wrapper.py`: the validation, normalization,
method-selection and broadcasting layer sitting in front of the native
AACGM-v2 engine.  Numeric values are modelled by `ℚ`; the floating
"missing value" sentinel `np.nan` is modelled by `none : Option ℚ`;
a raised Python exception is modelled by `Except PyError`.  The native
engine (`aacgmv2._aacgmv2`) is an opaque collaborator and is modelled by a
record of primitive behaviours, so that theorems can quantify over every
possible engine and count the calls the wrapper issues.
-/

namespace AacgmV2

/-- Modelled from the spec: the flag constants of the native module
`aacgmv2._aacgmv2` are not part of the wrapper source.  The spec fixes the
`G2A` default value to 0 ("an input with zero recognized tokens yields the
`G2A` default value (0)") and describes the others as independent bit
flags of an integer bit-mask; they are the engine's distinct powers of
two. -/
def G2A : Nat := 0

/-- Modelled from the spec: native direction flag, AACGM-to-geographic. -/
def A2G : Nat := 1

/-- Modelled from the spec: native flag, use field-line tracing. -/
def TRACE : Nat := 2

/-- Modelled from the spec: native flag, use tracing only above 2000 km. -/
def ALLOWTRACE : Nat := 4

/-- Modelled from the spec: native flag, use coefficients above 2000 km. -/
def BADIDEA : Nat := 8

/-- Modelled from the spec: native flag, inputs are geocentric. -/
def GEOCENTRIC : Nat := 16

/-- Modelled from the spec: `aacgmv2.high_alt_coeff` lives in the package
scaffolding, not in the wrapper source; the spec names it the
"high-altitude-coefficient-threshold (2000 km)". -/
def high_alt_coeff : ℚ := 2000

/-- Modelled from the spec: `aacgmv2.high_alt_trace`, the
"high-altitude-trace-threshold (an Earth-radius-scale ceiling)". -/
def high_alt_trace : ℚ := 6378.1

/-- Embeds `wrapper.test_height`: decide whether the height is appropriate for the
method bits.  The `height < 0` branch of the source only logs an advisory
and does not affect the returned value, so it is omitted here. -/
def test_height (height : ℚ) (bit_code : Nat) : Bool :=
  if height > high_alt_coeff ∧ bit_code &&& (TRACE ||| ALLOWTRACE ||| BADIDEA) = 0 then
    false
  else if height > high_alt_trace ∧ bit_code &&& BADIDEA = 0 then
    false
  else
    true

/-- Embeds `np.sign` on rationals. -/
def np_sign (x : ℚ) : ℚ :=
  if 0 < x then 1 else if x < 0 then -1 else 0

/-- Embeds `np.clip(x, lo, hi)`. -/
def np_clip (x lo hi : ℚ) : ℚ :=
  min (max x lo) hi

/-- The scalar latitude test of `convert_latlon` (source lines 221-227):
`none` models the raised `ValueError('unrealistic latitude')`, `some`
the (possibly clamped) latitude that flows on to the engine. -/
def validate_latitude (lat : ℚ) : Option ℚ :=
  if |lat| > 90 then
    if |lat| > 90.1 then none
    else some (np_sign lat * 90)
  else some lat

/-- Embeds `np.abs(a).max()` for a 1-D array; the empty case (where numpy would
raise) is given the junk value 0, and theorems about arrays assume a
nonempty input. -/
def maxAbs (ls : List ℚ) : ℚ :=
  (ls.map (fun x => |x|)).foldr max 0

/-- The array latitude test of `convert_latlon_arr` (source lines 362-366):
the whole-array maximum magnitude triggers the test, clamping is the
element-wise `np.clip(in_lat, -90.0, 90.0)`. -/
def validate_latitude_arr (lats : List ℚ) : Option (List ℚ) :=
  if maxAbs lats > 90 then
    if maxAbs lats > 90.1 then none
    else some (lats.map (fun x => np_clip x (-90) 90))
  else some lats

/-- Python's `x % m` for a positive modulus `m`: `x - m * ⌊x / m⌋`. -/
def pymod (x m : ℚ) : ℚ :=
  x - m * ⌊x / m⌋

/-- The longitude wrap `((lon + 180.0) % 360.0) - 180.0` applied by both
converters (source lines 229-230 and 368-369). -/
def normalize_longitude (lon : ℚ) : ℚ :=
  pymod (lon + 180) 360 - 180

/-- Python's `str.split("|")` on a character list. -/
def splitPipe : List Char → List (List Char)
  | [] => [[]]
  | c :: cs =>
    if c = '|' then [] :: splitPipe cs
    else
      match splitPipe cs with
      | [] => [[c]]
      | t :: ts => (c :: t) :: ts

/-- Embeds `method_code.upper().replace(" ", "").split("|")` from
`convert_str_to_bit` (source line 522). -/
def tokenize (s : String) : List (List Char) :=
  splitPipe ((s.toList.map Char.toUpper).filter (fun c => ¬ c = ' '))

/-- The `convert_code` dictionary of `convert_str_to_bit`
(source lines 516-519). -/
def convert_code : List (List Char × Nat) :=
  [("G2A".toList, G2A), ("A2G".toList, A2G), ("TRACE".toList, TRACE),
   ("BADIDEA".toList, BADIDEA), ("GEOCENTRIC".toList, GEOCENTRIC),
   ("ALLOWTRACE".toList, ALLOWTRACE)]

/-- Embeds `convert_code[k]` when `k in convert_code.keys()`, else `none`. -/
def lookupFlag (t : List Char) : Option Nat :=
  (convert_code.find? (fun p => p.1 == t)).map Prod.snd

/-- Embeds `sum([convert_code[k] for k in method_codes if k in convert_code.keys()])`
(source lines 525-526): recognized tokens contribute their flag value (with
multiplicity, in order), unrecognized tokens are dropped. -/
def bit_of_tokens (ts : List (List Char)) : Nat :=
  (ts.filterMap lookupFlag).sum

/-- Embeds `wrapper.convert_str_to_bit`. -/
def convert_str_to_bit (s : String) : Nat :=
  bit_of_tokens (tokenize s)

/-- The Python exceptions the wrapper can raise or propagate. -/
inductive PyError
  | valueError (msg : String)
  | nameError
  | runtimeError
  deriving DecidableEq, Repr

/-- The native engine, as seen by the wrapper: `set_datetime` either
succeeds or raises (`setOk = false`), `convert` maps one point to a triple
or throws an engine-internal error, `mlt_convert` maps a magnetic
longitude to an MLT value.  The date-time arguments of the native calls
are omitted: the wrapper never inspects them, it only forwards a valid
timestamp. -/
structure Engine where
  setOk : Bool
  convert : ℚ → ℚ → ℚ → Nat → Except Unit (ℚ × ℚ × ℚ)
  mlt_convert : ℚ → ℚ

/-- Result of one scalar wrapper call, together with the number of
`set_datetime` and `convert` calls issued to the engine. -/
structure ConvOutcome where
  result : Except PyError (Option ℚ × Option ℚ × Option ℚ)
  nSet : Nat
  nConv : Nat
  deriving Repr

/-- Embeds `wrapper.convert_latlon` for an integer bit code and a valid datetime
(the `test_time` promotion and the string-to-bit resolution happen
upstream of the behaviour the theorems quantify over).  Mirrors the
source order: height policy, latitude test, longitude wrap, set time,
convert with a catch-all that keeps the NaN initialisation. -/
def convert_latlon (eng : Engine) (in_lat in_lon height : ℚ) (bit_code : Nat) :
    ConvOutcome :=
  if test_height height bit_code = false then
    { result := .ok (none, none, none), nSet := 0, nConv := 0 }
  else
    match validate_latitude in_lat with
    | none => { result := .error (.valueError "unrealistic latitude"), nSet := 0, nConv := 0 }
    | some lat =>
      let lon := normalize_longitude in_lon
      if eng.setOk = false then
        { result := .error .runtimeError, nSet := 1, nConv := 0 }
      else
        match eng.convert lat lon height bit_code with
        | .ok v => { result := .ok (some v.1, some v.2.1, some v.2.2), nSet := 1, nConv := 1 }
        | .error _ => { result := .ok (none, none, none), nSet := 1, nConv := 1 }

/-- A 1-D numpy input: a scalar (rank 0) or a 1-D array (rank 1). -/
abbrev NdIn := Sum ℚ (List ℚ)

/-- Embeds `np.full(shape=n, fill_value=v)` for a 1-D shape. -/
def np_full (n : Nat) (v : ℚ) : List ℚ :=
  List.replicate n v

/-- The scalar-promotion step of `convert_latlon_arr` (source lines
305-324): all scalars become singleton arrays; otherwise each scalar is
filled to the shape of the first array input (`test_array.argmax()` picks
the first index of maximal rank, i.e. the first rank-1 input), and array
inputs pass through unchanged. -/
def broadcast3 (la lo h : NdIn) : List ℚ × List ℚ × List ℚ :=
  match la, lo, h with
  | .inl a, .inl b, .inl c => ([a], [b], [c])
  | la, lo, h =>
    let max_shape : Nat :=
      match la, lo, h with
      | .inr l, _, _ => l.length
      | .inl _, .inr l, _ => l.length
      | .inl _, .inl _, .inr l => l.length
      | .inl _, .inl _, .inl _ => 1
    ((match la with | .inl a => np_full max_shape a | .inr l => l),
     (match lo with | .inl b => np_full max_shape b | .inr l => l),
     (match h with | .inl c => np_full max_shape c | .inr l => l))

/-- The shape-consistency test of `convert_latlon_arr` (source lines
326-339), on 1-D shapes (lengths).  `array_key` collects the names whose
shape is not `(1,)`.  With three such names the source raises
`ValueError('lat, lon, and height arrays are mismatched')`; with exactly
two it evaluates `shape_dict[array_dict[1]]` where `array_dict` is an
undefined name, so Python raises `NameError` before any comparison. -/
def shape_check (nlat nlon nh : Nat) : Option PyError :=
  if nlat = nlon ∧ nlat = nh then none
  else
    let array_key : List String :=
      (if ¬ nlat = 1 then ["lat"] else []) ++
      (if ¬ nlon = 1 then ["lon"] else []) ++
      (if ¬ nh = 1 then ["height"] else [])
    if array_key.length = 3 then
      some (.valueError "lat, lon, and height arrays are mismatched")
    else if array_key.length = 2 then
      some .nameError
    else none

/-- Embeds `np.nanmax` on a 1-D array (the model has no NaN inputs; numpy would
raise on an empty array, here the empty case gets the junk value 0 and
theorems assume a nonempty batch). -/
def nanmax : List ℚ → ℚ
  | [] => 0
  | x :: xs => xs.foldl max x

/-- Zip the three coordinate arrays point-wise. -/
def zip3 : List ℚ → List ℚ → List ℚ → List (ℚ × ℚ × ℚ)
  | a :: as, b :: bs, c :: cs => (a, b, c) :: zip3 as bs cs
  | _, _, _ => []

/-- Embeds `np.vectorize(c_aacgmv2.convert)` applied to the zipped batch: the
engine is called element by element in order; the first engine throw
aborts the whole vectorized call (the exception propagates out of
`np.vectorize`).  Returns the all-or-nothing result and the number of
`convert` calls issued. -/
def vectorize_convert (eng : Engine) (bit_code : Nat) :
    List (ℚ × ℚ × ℚ) → Except Unit (List (ℚ × ℚ × ℚ)) × Nat
  | [] => (.ok [], 0)
  | p :: rest =>
    match eng.convert p.1 p.2.1 p.2.2 bit_code with
    | .error e => (.error e, 1)
    | .ok v =>
      match vectorize_convert eng bit_code rest with
      | (.ok vs, n) => (.ok (v :: vs), n + 1)
      | (.error e, n) => (.error e, n + 1)

/-- Result of one array wrapper call plus the engine call counts. -/
structure ArrOutcome where
  result : Except PyError (List (Option ℚ) × List (Option ℚ) × List (Option ℚ))
  nSet : Nat
  nConv : Nat

/-- Embeds `wrapper.convert_latlon_arr` for an integer bit code and a valid
datetime, on 1-D inputs.  Mirrors the source order: scalar promotion,
shape test, NaN initialisation of the three outputs, height policy on the
batch maximum, array latitude test, longitude wrap, set time, vectorized
convert inside a catch-all that keeps the NaN initialisation when the
vectorized call throws. -/
def convert_latlon_arr (eng : Engine) (la lo h : NdIn) (bit_code : Nat) :
    ArrOutcome :=
  let b := broadcast3 la lo h
  let lats := b.1
  let lons := b.2.1
  let hs := b.2.2
  match shape_check lats.length lons.length hs.length with
  | some e => { result := .error e, nSet := 0, nConv := 0 }
  | none =>
    let lat_out : List (Option ℚ) := List.replicate lats.length none
    let lon_out : List (Option ℚ) := List.replicate lons.length none
    let r_out : List (Option ℚ) := List.replicate hs.length none
    if test_height (nanmax hs) bit_code = false then
      { result := .ok (lat_out, lon_out, r_out), nSet := 0, nConv := 0 }
    else
      match validate_latitude_arr lats with
      | none => { result := .error (.valueError "unrealistic latitude"), nSet := 0, nConv := 0 }
      | some lats2 =>
        let lons2 := lons.map normalize_longitude
        if eng.setOk = false then
          { result := .error .runtimeError, nSet := 1, nConv := 0 }
        else
          match vectorize_convert eng bit_code (zip3 lats2 lons2 hs) with
          | (.ok vs, n) =>
            { result := .ok (vs.map (fun v => some v.1), vs.map (fun v => some v.2.1),
                             vs.map (fun v => some v.2.2)),
              nSet := 1, nConv := n }
          | (.error _, n) =>
            { result := .ok (lat_out, lon_out, r_out), nSet := 1, nConv := n }

/-- Result of one scalar facade call plus the engine call counts,
including the number of `mlt_convert` calls. -/
structure CoordOutcome where
  result : Except PyError (Option ℚ × Option ℚ × Option ℚ)
  nSet : Nat
  nConv : Nat
  nMlt : Nat

/-- Embeds `wrapper.get_aacgm_coord`: prepend `G2A` to the option string, convert
the point, then compute MLT only when the magnetic longitude is not NaN
(source lines 430-440).  `convert_latlon` resolves the string with
`convert_str_to_bit` (which upper-cases internally, so the source's extra
`.upper()` is a no-op). -/
def get_aacgm_coord (eng : Engine) (glat glon height : ℚ) (method : String) :
    CoordOutcome :=
  let method_code := "G2A|" ++ method
  let r := convert_latlon eng glat glon height (convert_str_to_bit method_code)
  match r.result with
  | .error e => { result := .error e, nSet := r.nSet, nConv := r.nConv, nMlt := 0 }
  | .ok (mlat, mlon, _) =>
    match mlon with
    | none => { result := .ok (mlat, none, none), nSet := r.nSet, nConv := r.nConv, nMlt := 0 }
    | some ml =>
      { result := .ok (mlat, some ml, some (eng.mlt_convert ml)),
        nSet := r.nSet, nConv := r.nConv, nMlt := 1 }

/-- A benign engine used to instantiate universally quantified theorems. -/
def stubEngine : Engine :=
  { setOk := true,
    convert := fun a b c _ => .ok (a, b, c),
    mlt_convert := fun x => x / 15 }

/-! ### Helper lemmas -/

lemma pymod_nonneg (x : ℚ) : 0 ≤ pymod x 360 := by
  unfold pymod
  have h := Int.floor_le (x / 360)
  have h360 : (0 : ℚ) < 360 := by norm_num
  nlinarith [h]

lemma pymod_lt (x : ℚ) : pymod x 360 < 360 := by
  unfold pymod
  have h := Int.lt_floor_add_one (x / 360)
  nlinarith [h]

lemma pymod_eq_self {x : ℚ} (h0 : 0 ≤ x) (h1 : x < 360) : pymod x 360 = x := by
  unfold pymod
  have hf : ⌊x / 360⌋ = 0 := by
    rw [Int.floor_eq_zero_iff]
    constructor
    · positivity
    · rw [div_lt_one (by norm_num : (0:ℚ) < 360)]; simpa using h1
  rw [hf]
  ring

lemma maxAbs_cons (x : ℚ) (ls : List ℚ) : maxAbs (x :: ls) = max |x| (maxAbs ls) := by
  simp [maxAbs]

lemma le_maxAbs {x : ℚ} {ls : List ℚ} (h : x ∈ ls) : |x| ≤ maxAbs ls := by
  induction ls with
  | nil => simp at h
  | cons y t ih =>
    rw [maxAbs_cons]
    rcases List.mem_cons.mp h with rfl | hm
    · exact le_max_left _ _
    · exact le_trans (ih hm) (le_max_right _ _)

lemma maxAbs_le {ls : List ℚ} {b : ℚ} (hb : 0 ≤ b) (h : ∀ x ∈ ls, |x| ≤ b) :
    maxAbs ls ≤ b := by
  induction ls with
  | nil => simpa [maxAbs]
  | cons y t ih =>
    rw [maxAbs_cons]
    exact max_le (h y (by simp)) (ih (fun x hx => h x (by simp [hx])))

lemma np_clip_eq_scalar_clamp (x : ℚ) (h : |x| ≤ 90.1) :
    np_clip x (-90) 90 = if 90 < |x| then np_sign x * 90 else x := by
  unfold np_clip np_sign
  by_cases h90 : 90 < |x|
  · rw [if_pos h90]
    rcases lt_abs.mp h90 with hc | hc
    · rw [if_pos (by linarith), max_eq_left (by linarith), min_eq_right (by linarith)]
      norm_num
    · rw [if_neg (by linarith), if_pos (by linarith),
        max_eq_right (by linarith), min_eq_left (by norm_num)]
      norm_num
  · have hx := abs_le.mp (not_lt.mp h90)
    rw [if_neg h90, max_eq_left (by linarith), min_eq_left (by linarith)]

/-! ### Claim theorems -/

/-- C9: the longitude wrap `((lon + 180) % 360) - 180` used by both
converters always lands in `[-180, 180)` and is idempotent. -/
theorem c9_normalize_longitude_range_idem (lon : ℚ) :
    (-180 ≤ normalize_longitude lon ∧ normalize_longitude lon < 180) ∧
    normalize_longitude (normalize_longitude lon) = normalize_longitude lon := by
  have h0 := pymod_nonneg (lon + 180)
  have h1 := pymod_lt (lon + 180)
  have hrange : -180 ≤ normalize_longitude lon ∧ normalize_longitude lon < 180 := by
    unfold normalize_longitude
    constructor <;> linarith
  refine ⟨hrange, ?_⟩
  have harg : normalize_longitude lon + 180 = pymod (lon + 180) 360 := by
    unfold normalize_longitude; ring
  calc normalize_longitude (normalize_longitude lon)
      = pymod (normalize_longitude lon + 180) 360 - 180 := rfl
    _ = normalize_longitude lon := by
        rw [harg, pymod_eq_self h0 h1, ← harg]; ring

/-- C2: latitude validation in the scalar and the array converter:
magnitude above 90.1 is rejected, magnitude in (90, 90.1] is clamped to
±90 by sign, magnitude at most 90 passes through, and the normalization
is idempotent below the rejection threshold. -/
theorem c2_validate_latitude :
    (∀ L : ℚ, 90.1 < |L| → validate_latitude L = none) ∧
    (∀ L : ℚ, 90 < |L| → |L| ≤ 90.1 →
      validate_latitude L = some (if 0 < L then 90 else -90)) ∧
    (∀ L : ℚ, |L| ≤ 90 → validate_latitude L = some L) ∧
    (∀ L M : ℚ, |L| ≤ 90.1 → validate_latitude L = some M →
      validate_latitude M = some M) ∧
    (∀ (ls : List ℚ) (x : ℚ), x ∈ ls → 90.1 < |x| → validate_latitude_arr ls = none) ∧
    (∀ ls : List ℚ, maxAbs ls ≤ 90.1 →
      validate_latitude_arr ls =
        some (ls.map (fun x => if 90 < |x| then np_sign x * 90 else x))) := by
  have hreject : ∀ L : ℚ, 90.1 < |L| → validate_latitude L = none := by
    intro L h
    unfold validate_latitude
    rw [if_pos (by linarith), if_pos h]
  have hclamp : ∀ L : ℚ, 90 < |L| → |L| ≤ 90.1 →
      validate_latitude L = some (if 0 < L then 90 else -90) := by
    intro L h1 h2
    unfold validate_latitude np_sign
    rw [if_pos h1, if_neg (not_lt.mpr h2)]
    rcases lt_abs.mp h1 with hc | hc
    · rw [if_pos (by linarith), if_pos (by linarith)]
      norm_num
    · have hL0 : ¬ 0 < L := by linarith
      rw [if_neg hL0, if_pos (show L < 0 by linarith), if_neg hL0]
      norm_num
  have hpass : ∀ L : ℚ, |L| ≤ 90 → validate_latitude L = some L := by
    intro L h
    unfold validate_latitude
    rw [if_neg (not_lt.mpr h)]
  refine ⟨hreject, hclamp, hpass, ?_, ?_, ?_⟩
  · intro L M h1 h2
    by_cases h90 : |L| ≤ 90
    · rw [hpass L h90] at h2
      exact (Option.some_inj.mp h2) ▸ hpass L h90
    · have h1' : 90 < |L| := lt_of_not_le h90
      rw [hclamp L h1' h1] at h2
      have hM : M = if 0 < L then 90 else -90 := (Option.some_inj.mp h2).symm
      have : |M| ≤ 90 := by
        rw [hM]; split_ifs <;> simp [abs_le]
      exact hpass M this
  · intro ls x hmem h
    have hle := le_maxAbs hmem
    unfold validate_latitude_arr
    rw [if_pos (by linarith), if_pos (by linarith)]
  · intro ls h
    unfold validate_latitude_arr
    by_cases h90 : maxAbs ls ≤ 90
    · rw [if_neg (not_lt.mpr h90)]
      have hmap : ls.map (fun x => if 90 < |x| then np_sign x * 90 else x) = ls.map id :=
        List.map_congr_left (fun x hx => by
          rw [if_neg (not_lt.mpr (le_trans (le_maxAbs hx) h90))]; rfl)
      rw [hmap, List.map_id]
    · rw [if_pos (lt_of_not_le h90), if_neg (not_lt.mpr h)]
      congr 1
      apply List.map_congr_left
      intro x hx
      exact np_clip_eq_scalar_clamp x (le_trans (le_maxAbs hx) h)

/-- C2 witness: the theorem applied at concrete latitudes. -/
theorem c2_validate_latitude_witness :
    validate_latitude 95 = none ∧
    validate_latitude 90.05 = some (if (0:ℚ) < 90.05 then 90 else -90) ∧
    validate_latitude 45 = some 45 ∧
    validate_latitude_arr [10, -90.2] = none ∧
    validate_latitude_arr [90.05, 10] =
      some ([90.05, 10].map (fun x => if 90 < |x| then np_sign x * 90 else x)) :=
  ⟨c2_validate_latitude.1 95 (by norm_num [abs_of_pos]),
   c2_validate_latitude.2.1 90.05 (by norm_num [abs_of_pos]) (by norm_num [abs_of_pos]),
   c2_validate_latitude.2.2.1 45 (by norm_num [abs_of_pos]),
   c2_validate_latitude.2.2.2.2.1 [10, -90.2] (-90.2) (by norm_num)
     (by rw [abs_of_neg (by norm_num)]; norm_num),
   c2_validate_latitude.2.2.2.2.2 [90.05, 10]
     (by rw [maxAbs_cons, maxAbs_cons]; norm_num [maxAbs, abs_of_pos])⟩

/-- C10: on every latitude of magnitude at most 90.1 the scalar clamp
(`np.sign(lat) * 90` when `|lat| > 90`) and the array clamp
(`np.clip(lat, -90, 90)`) agree, and the array validator is the
element-wise image of the scalar validator. -/
theorem c10_scalar_array_clamp_equiv :
    (∀ L : ℚ, |L| ≤ 90.1 → validate_latitude L = some (np_clip L (-90) 90)) ∧
    (∀ ls : List ℚ, ls ≠ [] → (∀ x ∈ ls, |x| ≤ 90.1) →
      validate_latitude_arr ls = some (ls.filterMap validate_latitude)) := by
  have hscalar : ∀ L : ℚ, |L| ≤ 90.1 → validate_latitude L = some (np_clip L (-90) 90) := by
    intro L h
    rw [np_clip_eq_scalar_clamp L h]
    unfold validate_latitude np_sign
    by_cases h90 : 90 < |L|
    · rw [if_pos h90, if_neg (not_lt.mpr h), if_pos h90]
    · rw [if_neg h90, if_neg h90]
  refine ⟨hscalar, ?_⟩
  intro ls _ hall
  have hfm : ls.filterMap validate_latitude = ls.map (fun x => np_clip x (-90) 90) := by
    have h1 : ls.filterMap validate_latitude =
        ls.filterMap (fun x => some (np_clip x (-90) 90)) :=
      List.filterMap_congr (fun x hx => hscalar x (hall x hx))
    rw [h1]
    exact congrFun (List.filterMap_eq_map _) ls
  rw [hfm]
  unfold validate_latitude_arr
  have hmax : maxAbs ls ≤ 90.1 := maxAbs_le (by norm_num) hall
  by_cases h90 : maxAbs ls ≤ 90
  · rw [if_neg (not_lt.mpr h90)]
    have hmap : ls.map (fun x => np_clip x (-90) 90) = ls.map id :=
      List.map_congr_left (fun x hx => by
        have hxb := abs_le.mp (le_trans (le_maxAbs hx) h90)
        unfold np_clip
        rw [max_eq_left (by linarith), min_eq_left (by linarith)]; rfl)
    rw [hmap, List.map_id]
  · rw [if_pos (lt_of_not_le h90), if_neg (not_lt.mpr hmax)]

/-- C10 witness: the theorem applied at a clamped scalar and a mixed array. -/
theorem c10_scalar_array_clamp_equiv_witness :
    validate_latitude 90.05 = some (np_clip 90.05 (-90) 90) ∧
    validate_latitude_arr [90.05, 10] = some ([90.05, 10].filterMap validate_latitude) :=
  ⟨c10_scalar_array_clamp_equiv.1 90.05 (by norm_num [abs_of_pos]),
   c10_scalar_array_clamp_equiv.2 [90.05, 10] (by simp)
     (by intro x hx; rcases List.mem_cons.mp hx with rfl | hx2 <;>
         simp_all <;> norm_num [abs_of_pos])⟩

lemma splitPipe_g2a (rest : List Char) :
    splitPipe ('G' :: '2' :: 'A' :: '|' :: rest) = ['G', '2', 'A'] :: splitPipe rest := by
  have hbar : splitPipe ('|' :: rest) = [] :: splitPipe rest := by
    rw [splitPipe, if_pos rfl]
  rw [splitPipe, if_neg (by decide), splitPipe, if_neg (by decide),
    splitPipe, if_neg (by decide), hbar]

lemma tokenize_g2a_prepend (m : String) :
    tokenize ("G2A|" ++ m) = "G2A".toList :: tokenize m := by
  unfold tokenize
  have htl : ("G2A|" ++ m).toList = "G2A|".toList ++ m.toList := by
    simp [String.toList]
  rw [htl, List.map_append, List.filter_append]
  have hpre : (("G2A|".toList).map Char.toUpper).filter (fun c => ¬ c = ' ') =
      ['G', '2', 'A', '|'] := by decide
  rw [hpre]
  exact splitPipe_g2a _

/-- C5: the method-string decoder sums the flag values of recognized
tokens (after upper-casing, space removal and splitting on pipes),
silently ignores unrecognized tokens, maps a token list with no
recognized member to 0, is order-independent, and identifies
`"G2A|TRACE|BADIDEA"` with `"BADIDEA | trace | g2a"`. -/
theorem c5_convert_str_to_bit :
    (∀ (t : List Char) (ts : List (List Char)), lookupFlag t = none →
      bit_of_tokens (t :: ts) = bit_of_tokens ts) ∧
    (∀ s : String, (∀ t ∈ tokenize s, lookupFlag t = none) → convert_str_to_bit s = 0) ∧
    (∀ ts ts' : List (List Char), ts.Perm ts' → bit_of_tokens ts = bit_of_tokens ts') ∧
    convert_str_to_bit "G2A|TRACE|BADIDEA" = convert_str_to_bit "BADIDEA | trace | g2a" := by
  refine ⟨?_, ?_, ?_, by decide⟩
  · intro t ts h
    simp [bit_of_tokens, List.filterMap_cons, h]
  · intro s h
    unfold convert_str_to_bit bit_of_tokens
    rw [List.filterMap_eq_nil_iff.mpr h]
    rfl
  · intro ts ts' h
    unfold bit_of_tokens
    exact (h.filterMap lookupFlag).sum_eq

/-- C5 witness: the theorem applied at concrete tokens and strings. -/
theorem c5_convert_str_to_bit_witness :
    bit_of_tokens ("FOO".toList :: ["TRACE".toList]) = bit_of_tokens ["TRACE".toList] ∧
    convert_str_to_bit "foo|bar" = 0 ∧
    bit_of_tokens ["G2A".toList, "TRACE".toList] = bit_of_tokens ["TRACE".toList, "G2A".toList] :=
  ⟨c5_convert_str_to_bit.1 "FOO".toList ["TRACE".toList] (by decide),
   c5_convert_str_to_bit.2.1 "foo|bar" (by decide),
   c5_convert_str_to_bit.2.2.1 ["G2A".toList, "TRACE".toList] ["TRACE".toList, "G2A".toList]
     (by decide)⟩

/-- C7 counterexample: prepending `G2A` does not force the direction to
geographic-to-AACGM when the caller's string contains `A2G`: the decoded
code of `"G2A|A2G"` carries the `A2G` direction bit (the `G2A` flag value
is 0), so the conversion performed is AACGM-to-geographic. -/
theorem c7_counterexample :
    convert_str_to_bit ("G2A|" ++ "A2G") &&& A2G = A2G ∧
    ¬ convert_str_to_bit ("G2A|" ++ "A2G") &&& A2G = G2A := by
  constructor <;> decide

/-- C7 (amended): prepending `G2A` to the option string never changes the
decoded method code at all, because the `G2A` flag value is 0; the
direction component of the code used by `get_aacgm_coord` is therefore
whatever the caller's own string decodes to — `G2A` for option strings
such as `"TRACE"` that carry no `A2G` token, and `A2G` when the caller
supplies one. -/
theorem c7_amended_g2a_noop :
    (∀ m : String, convert_str_to_bit ("G2A|" ++ m) = convert_str_to_bit m) ∧
    convert_str_to_bit ("G2A|" ++ "TRACE") &&& A2G = G2A := by
  constructor
  · intro m
    unfold convert_str_to_bit
    rw [tokenize_g2a_prepend]
    simp [bit_of_tokens, List.filterMap_cons, lookupFlag, convert_code, G2A]
  · decide

/-- C7 witness: the amended theorem applied at the facade's default
option string. -/
theorem c7_amended_g2a_noop_witness :
    convert_str_to_bit ("G2A|" ++ "TRACE") = convert_str_to_bit "TRACE" :=
  c7_amended_g2a_noop.1 "TRACE"

/-- C1: for every height above 2000 km and every method code lacking all
of the `TRACE`, `ALLOWTRACE` and `BADIDEA` flags, the scalar conversion
returns the all-missing triple, issues no `set_datetime` and no `convert`
call to the engine, and raises nothing — for every possible engine. -/
theorem c1_high_altitude_blocked (eng : Engine) (in_lat in_lon height : ℚ)
    (bit_code : Nat) (hh : 2000 < height)
    (hb : bit_code &&& (TRACE ||| ALLOWTRACE ||| BADIDEA) = 0) :
    convert_latlon eng in_lat in_lon height bit_code =
      { result := .ok (none, none, none), nSet := 0, nConv := 0 } := by
  have ht : test_height height bit_code = false := by
    unfold test_height
    rw [if_pos ⟨by unfold high_alt_coeff; exact hh, hb⟩]
  unfold convert_latlon
  rw [ht]
  rfl

/-- C1 witness: a 2500 km point with the plain `G2A` code, on an engine
that would happily convert anything. -/
theorem c1_high_altitude_blocked_witness :
    convert_latlon stubEngine 45 30 2500 G2A =
      { result := .ok (none, none, none), nSet := 0, nConv := 0 } :=
  c1_high_altitude_blocked stubEngine 45 30 2500 G2A (by norm_num) (by decide)

/-- C6: whenever the scalar facade's point conversion yields a missing
magnetic longitude, the returned MLT is missing as well and the MLT
primitive is never invoked. -/
theorem c6_missing_mlon_skips_mlt (eng : Engine) (glat glon height : ℚ)
    (method : String) (mlat mlon mlt : Option ℚ)
    (hres : (get_aacgm_coord eng glat glon height method).result = .ok (mlat, mlon, mlt))
    (hmlon : mlon = none) :
    mlt = none ∧ (get_aacgm_coord eng glat glon height method).nMlt = 0 := by
  subst hmlon
  simp only [get_aacgm_coord] at hres ⊢
  revert hres
  rcases (convert_latlon eng glat glon height
      (convert_str_to_bit ("G2A|" ++ method))).result with e | ⟨a, b, c⟩
  · intro hres
    simp at hres
  · rcases b with _ | ml
    · intro hres
      simp_all
    · intro hres
      simp at hres

/-- C6 witness: a blocked high-altitude request leaves the longitude
missing, and the theorem then reports a missing MLT with zero MLT calls. -/
theorem c6_missing_mlon_skips_mlt_witness :
    (none : Option ℚ) = none ∧ (get_aacgm_coord stubEngine 0 0 3000 "").nMlt = 0 :=
  c6_missing_mlon_skips_mlt stubEngine 0 0 3000 "" none none none rfl rfl

/-- An engine whose `convert` throws exactly at latitude 2 and succeeds
everywhere else; used to exhibit a single-point engine failure inside a
batch. -/
def failEngine : Engine :=
  { setOk := true,
    convert := fun a _ _ _ => if a = 2 then .error () else .ok (a + 1, a + 2, a + 3),
    mlt_convert := fun x => x }

lemma broadcast3_arr (a b c : List ℚ) :
    broadcast3 (Sum.inr a) (Sum.inr b) (Sum.inr c) = (a, b, c) := rfl

lemma zip3_length (a b c : List ℚ) (h1 : a.length = c.length)
    (h2 : b.length = c.length) : (zip3 a b c).length = c.length := by
  induction a generalizing b c with
  | nil =>
    cases c with
    | nil =>
      cases b with
      | nil => rfl
      | cons y bs => simp at h2
    | cons z cs => simp at h1
  | cons x as ih =>
    cases c with
    | nil => simp at h1
    | cons z cs =>
      cases b with
      | nil => simp at h2
      | cons y bs =>
        simp only [zip3, List.length_cons]
        rw [ih bs cs (by simpa using h1) (by simpa using h2)]

lemma vectorize_convert_total (eng : Engine) (bit_code : Nat)
    (l : List (ℚ × ℚ × ℚ))
    (h : ∀ a b c, ∃ v, eng.convert a b c bit_code = Except.ok v) :
    ∃ vs, vectorize_convert eng bit_code l = (Except.ok vs, l.length) := by
  induction l with
  | nil => exact ⟨[], rfl⟩
  | cons p rest ih =>
    obtain ⟨v, hv⟩ := h p.1 p.2.1 p.2.2
    obtain ⟨vs, hvs⟩ := ih
    refine ⟨v :: vs, ?_⟩
    simp [vectorize_convert, hv, hvs]

/-- C4 counterexample: with lat of shape (3,), lon of shape (3,) and
height of shape (4,), `convert_latlon_arr` raises the dimension-mismatch
error naming all three inputs — `array_key` collects every non-singleton
input, mismatched with the others or not — rather than naming height and
one of lat/lon. -/
theorem c4_shape_mismatch_counterexample :
    (convert_latlon_arr stubEngine (Sum.inr [0, 0, 0]) (Sum.inr [0, 0, 0])
        (Sum.inr [100, 100, 100, 100]) G2A).result =
      Except.error (.valueError "lat, lon, and height arrays are mismatched") ∧
    shape_check 3 3 4 = some (.valueError "lat, lon, and height arrays are mismatched") ∧
    ¬ shape_check 3 3 4 = some (.valueError "lon and height arrays are mismatched") ∧
    ¬ shape_check 3 3 4 = some (.valueError "lat and height arrays are mismatched") := by
  refine ⟨rfl, rfl, by decide, by decide⟩

/-- C4 (amended): after broadcasting, whenever the three final shapes are
not all identical, the failure depends only on which inputs are
non-singleton: if all three are non-singleton the `ValueError` names all
three inputs (whether the mismatch is 2-way or 3-way); if exactly two are
non-singleton the code raises an unhandled `NameError` (the source's
two-input message is unreachable, since its guard reads the undefined
variable `array_dict`). -/
theorem c4_shape_mismatch_amended (a b c : Nat) (hne : ¬ (a = b ∧ a = c)) :
    (¬ a = 1 → ¬ b = 1 → ¬ c = 1 →
      shape_check a b c =
        some (.valueError "lat, lon, and height arrays are mismatched")) ∧
    ((a = 1 ∧ ¬ b = 1 ∧ ¬ c = 1) ∨ (¬ a = 1 ∧ b = 1 ∧ ¬ c = 1) ∨
        (¬ a = 1 ∧ ¬ b = 1 ∧ c = 1) →
      shape_check a b c = some .nameError) := by
  constructor
  · intro h1 h2 h3
    unfold shape_check
    rw [if_neg hne]
    simp [h1, h2, h3]
  · intro hcase
    rcases hcase with ⟨h1, h2, h3⟩ | ⟨h1, h2, h3⟩ | ⟨h1, h2, h3⟩ <;>
      (unfold shape_check; rw [if_neg hne]; simp [h1, h2, h3])

/-- C4 witness: the amended theorem applied at shapes (3,)(3,)(4,) and
(3,)(1,)(4,). -/
theorem c4_shape_mismatch_amended_witness :
    shape_check 3 3 4 = some (.valueError "lat, lon, and height arrays are mismatched") ∧
    shape_check 3 1 4 = some .nameError :=
  ⟨(c4_shape_mismatch_amended 3 3 4 (by decide)).1 (by decide) (by decide) (by decide),
   (c4_shape_mismatch_amended 3 1 4 (by decide)).2 (Or.inr (Or.inl (by decide)))⟩

/-- C3 counterexample: in a two-point batch where the engine succeeds on
the first point and throws on the second, the first output element is
also the missing value — the source wraps the whole vectorized call in
one try/except and keeps the all-NaN initialisation — although the
engine converts the first point (latitude 1, wrapped longitude 0) just
fine. -/
theorem c3_per_point_failure_counterexample :
    (convert_latlon_arr failEngine (Sum.inr [1, 2]) (Sum.inr [0, 0])
        (Sum.inr [100, 100]) G2A).result =
      Except.ok ([none, none], [none, none], [none, none]) ∧
    failEngine.convert 1 (normalize_longitude 0) 100 G2A = Except.ok (2, 3, 4) := by
  constructor
  · norm_num [convert_latlon_arr, broadcast3, shape_check, nanmax, test_height,
      high_alt_coeff, high_alt_trace, G2A, TRACE, ALLOWTRACE, BADIDEA,
      validate_latitude_arr, maxAbs, normalize_longitude, pymod, zip3,
      vectorize_convert, failEngine, List.replicate]
  · norm_num [failEngine, normalize_longitude, pymod]

/-- C3 (amended): a per-point engine failure never raises out of the
batch call, but it degrades the **whole** batch, not just the failing
element: every successful `.ok` result is all-missing or all-converted
(never a mixture), and every raised error precedes the first `convert`
call. -/
theorem c3_batch_failure_all_or_nothing (eng : Engine) (la lo h : NdIn)
    (bit_code : Nat) :
    (∀ o1 o2 o3, (convert_latlon_arr eng la lo h bit_code).result = Except.ok (o1, o2, o3) →
      (∀ x ∈ o1, x = none) ∨ (∀ x ∈ o1, ∃ q, x = some q)) ∧
    (∀ e, (convert_latlon_arr eng la lo h bit_code).result = Except.error e →
      (convert_latlon_arr eng la lo h bit_code).nConv = 0) := by
  constructor
  · intro o1 o2 o3 hout
    revert hout
    simp only [convert_latlon_arr]
    split
    · intro hout; simp at hout
    · split
      · intro hout
        simp only [Except.ok.injEq, Prod.mk.injEq] at hout
        left
        intro x hx
        rw [← hout.1] at hx
        exact List.eq_of_mem_replicate hx
      · split
        · intro hout; simp at hout
        · split
          · intro hout; simp at hout
          · split
            · intro hout
              simp only [Except.ok.injEq, Prod.mk.injEq] at hout
              right
              intro x hx
              rw [← hout.1] at hx
              obtain ⟨v, _, hv⟩ := List.mem_map.mp hx
              exact ⟨v.1, hv.symm⟩
            · intro hout
              simp only [Except.ok.injEq, Prod.mk.injEq] at hout
              left
              intro x hx
              rw [← hout.1] at hx
              exact List.eq_of_mem_replicate hx
  · intro e herr
    revert herr
    simp only [convert_latlon_arr]
    split
    · intro _; rfl
    · split
      · intro herr; simp at herr
      · split
        · intro _; rfl
        · split
          · intro _; rfl
          · split
            · intro herr; simp at herr
            · intro herr; simp at herr

/-- C3 witness: the amended theorem applied to the two-point batch whose
second point makes the engine throw. -/
theorem c3_batch_failure_all_or_nothing_witness :
    (∀ x ∈ ([none, none] : List (Option ℚ)), x = none) ∨
    (∀ x ∈ ([none, none] : List (Option ℚ)), ∃ q, x = some q) :=
  (c3_batch_failure_all_or_nothing failEngine (Sum.inr [1, 2]) (Sum.inr [0, 0])
    (Sum.inr [100, 100]) G2A).1 [none, none] [none, none] [none, none]
    (by norm_num [convert_latlon_arr, broadcast3, shape_check, nanmax, test_height,
      high_alt_coeff, high_alt_trace, G2A, TRACE, ALLOWTRACE, BADIDEA,
      validate_latitude_arr, maxAbs, normalize_longitude, pymod, zip3,
      vectorize_convert, failEngine, List.replicate])

/-- C8: the array converter makes one height-policy decision per batch,
on the maximum height: if it fails, the whole batch is the all-missing
result with zero engine calls; if it passes (and latitude, epoch-setting
and the engine itself raise nothing), the epoch is set once and the
convert primitive is invoked once per point, with no per-point height
re-check. -/
theorem c8_batch_height_policy (eng : Engine) (lats lons hs : List ℚ)
    (bit_code : Nat) (hl1 : lats.length = hs.length)
    (hl2 : lons.length = hs.length) (hnempty : hs ≠ []) :
    (test_height (nanmax hs) bit_code = false →
      convert_latlon_arr eng (Sum.inr lats) (Sum.inr lons) (Sum.inr hs) bit_code =
        { result := .ok (List.replicate lats.length none, List.replicate lons.length none,
                         List.replicate hs.length none),
          nSet := 0, nConv := 0 }) ∧
    (test_height (nanmax hs) bit_code = true → eng.setOk = true → maxAbs lats ≤ 90 →
      (∀ a b c, ∃ v, eng.convert a b c bit_code = Except.ok v) →
      (convert_latlon_arr eng (Sum.inr lats) (Sum.inr lons) (Sum.inr hs) bit_code).nSet = 1 ∧
      (convert_latlon_arr eng (Sum.inr lats) (Sum.inr lons) (Sum.inr hs) bit_code).nConv =
        hs.length) := by
  have hsc : shape_check lats.length lons.length hs.length = none := by
    unfold shape_check
    rw [if_pos ⟨hl1.trans hl2.symm, hl1⟩]
  constructor
  · intro hth
    simp [convert_latlon_arr, broadcast3_arr, hsc, hth]
  · intro hth hset hlat htotal
    have hval : validate_latitude_arr lats = some lats := by
      unfold validate_latitude_arr
      rw [if_neg (not_lt.mpr hlat)]
    have hz : (zip3 lats (lons.map normalize_longitude) hs).length = hs.length :=
      zip3_length _ _ _ hl1 (by simpa using hl2)
    obtain ⟨vs, hvs⟩ :=
      vectorize_convert_total eng bit_code (zip3 lats (lons.map normalize_longitude) hs) htotal
    constructor <;>
      simp [convert_latlon_arr, broadcast3_arr, hsc, hth, hval, hset, hvs, hz]

/-- C8 witness: the theorem applied to a blocked batch (max height
3000 km, plain G2A) and to an accepted batch (max height 1999 km). -/
theorem c8_batch_height_policy_witness :
    (convert_latlon_arr stubEngine (Sum.inr [0, 0]) (Sum.inr [0, 0])
        (Sum.inr [100, 3000]) G2A =
      { result := .ok ([none, none], [none, none], [none, none]),
        nSet := 0, nConv := 0 }) ∧
    ((convert_latlon_arr stubEngine (Sum.inr [0, 0]) (Sum.inr [0, 0])
        (Sum.inr [100, 1999]) G2A).nSet = 1 ∧
     (convert_latlon_arr stubEngine (Sum.inr [0, 0]) (Sum.inr [0, 0])
        (Sum.inr [100, 1999]) G2A).nConv = 2) :=
  ⟨(c8_batch_height_policy stubEngine [0, 0] [0, 0] [100, 3000] G2A rfl rfl
      (by simp)).1
      (by norm_num [test_height, nanmax, high_alt_coeff, high_alt_trace, G2A,
        TRACE, ALLOWTRACE, BADIDEA]),
   (c8_batch_height_policy stubEngine [0, 0] [0, 0] [100, 1999] G2A rfl rfl
      (by simp)).2
      (by norm_num [test_height, nanmax, high_alt_coeff, high_alt_trace, G2A,
        TRACE, ALLOWTRACE, BADIDEA])
      rfl (by norm_num [maxAbs]) (fun a b c => ⟨(a, b, c), rfl⟩)⟩

end AacgmV2
